import Mathlib

/-!
# ShadowTrade — verification of the policy-enforcement pipeline

Shallow embedding of the ShadowTrade trading-agent core: the Strategy DSL
data model, the Limit Enforcer (`validateStrategy`, `src/parser/index.ts`),
the Risk Re-checker (`checkRisk`), the economic reasoning ledger, the x402
payment client, the BITE encrypted-intent codec, the workflow orchestrator
(`AgentWorkflow.run`) and the dashboard trade-lifecycle state machine.

Numbers: USDC amounts and condition thresholds are modelled as `ℚ`
(the source uses JS numbers for exact decimal quantities); slippage
basis points and expiry minutes are modelled as `ℤ` (the schema requires
integers there).
-/

/- `Rat.add`/`Rat.sub`/`Rat.mul`/`Rat.inv` are `@[irreducible]` in Batteries;
unseal them so that concrete witness computations on ℚ go through `decide`. -/
unseal Rat.add

unseal Rat.sub

unseal Rat.mul

unseal Rat.inv

namespace ShadowTrade

/-! ## Data model (`src/schemas.ts` types, `src/types.ts`) -/

inductive ConditionType
  | price_below
  | price_above
  | funding_below
  | funding_above
  | volatility_above
deriving DecidableEq, Repr

structure Condition where
  type : ConditionType
  value : ℚ
deriving DecidableEq, Repr

inductive ActionType
  | swap
deriving DecidableEq, Repr

inductive Direction
  | buy
  | sell
deriving DecidableEq, Repr

structure TradeAction where
  type : ActionType
  amount_usdc : ℚ
  direction : Direction
deriving DecidableEq, Repr

inductive ApprovalMode
  | auto
  | manual
deriving DecidableEq, Repr

structure StrategyControls where
  max_slippage_bps : ℤ
  approval_mode : ApprovalMode
  expires_in_minutes : ℤ
deriving DecidableEq, Repr

structure StrategyDSL where
  pair : String
  conditions : List Condition
  actions : List TradeAction
  controls : StrategyControls
deriving DecidableEq, Repr

/-- The zod `StrategyDSLSchema` of the schemas module (concatenated into
`src/dashboard/bot-manager.ts`, second document), as a predicate on the
typed embedding:

* `pair: z.string().min(1)` — `pair ≠ ""`;
* `conditions: z.array(ConditionSchema).min(1)` — non-empty, and each
  `value: z.number().positive()`;
* `actions: z.array(ActionSchema).min(1)` — non-empty, and each
  `amount_usdc: z.number().positive()`;
* `controls.max_slippage_bps: z.number().int().min(1).max(500)`;
* `controls.expires_in_minutes: z.number().int().positive()`.

The enumerations (`ConditionTypeEnum`, `ActionTypeEnum`, `direction`,
`approval_mode`), the object shapes, and the `.int()` constraints are
carried by the embedding's inductive/structure types and the choice of `ℤ`
for the two integer control fields, so `safeParse` succeeds on a typed
strategy exactly when this predicate holds. -/
def schemaOk (s : StrategyDSL) : Bool :=
  decide (s.pair ≠ "") &&
  !s.conditions.isEmpty &&
  s.conditions.all (fun c => decide (0 < c.value)) &&
  !s.actions.isEmpty &&
  s.actions.all (fun a => decide (0 < a.amount_usdc)) &&
  decide (1 ≤ s.controls.max_slippage_bps) &&
  decide (s.controls.max_slippage_bps ≤ 500) &&
  decide (0 < s.controls.expires_in_minutes)

/-! ## Limit Enforcer (`src/parser/index.ts`, `validateStrategy`) -/

structure ValidationLimits where
  allowed_pairs : List String
  max_spend_usdc : ℚ
  max_slippage_bps : ℤ
deriving DecidableEq, Repr

structure ValidationResult where
  valid : Bool
  strategy : Option StrategyDSL
  errors : List String
  clamped : List String
deriving DecidableEq, Repr

/-- Error message pushed by the pair-allowlist check of `validateStrategy`. -/
def pairNotAllowedMsg (pair : String) (allowed : List String) : String :=
  "Pair \"" ++ pair ++ "\" is not in the allowlist: [" ++
    String.intercalate ", " allowed ++ "]"

/-- Clamp note pushed by the slippage clamp of `validateStrategy`. -/
def slippageClampedMsg (fromBps toBps : ℤ) : String :=
  "max_slippage_bps clamped from " ++ toString fromBps ++ " to " ++ toString toBps

/-- Error message pushed by the per-action spend check of `validateStrategy`. -/
def actionOverCapMsg (amount cap : ℚ) : String :=
  "Action amount " ++ toString amount ++ " USDC exceeds hard cap of " ++
    toString cap ++ " USDC"

/-- Deterministic validation and enforcement layer
(`validateStrategy` of `src/parser/index.ts`).

The first branch is the `StrategyDSLSchema.safeParse` failure path: on a
typed strategy `safeParse` succeeds exactly when `schemaOk` holds, so that
branch fires exactly when `schemaOk` is false; the per-issue zod messages
are summarized by one generic message (no claim inspects schema error
text). -/
def validateStrategy (dsl : StrategyDSL) (limits : ValidationLimits) :
    ValidationResult :=
  if !schemaOk dsl then
    { valid := false, strategy := none,
      errors := ["Strategy failed schema validation"], clamped := [] }
  else
    -- 2. Pair allowlist
    let pairErrors : List String :=
      if !limits.allowed_pairs.contains dsl.pair then
        [pairNotAllowedMsg dsl.pair limits.allowed_pairs]
      else []
    -- 3. Slippage: clamp if above hard max
    let clampedStrategy :=
      if dsl.controls.max_slippage_bps > limits.max_slippage_bps then
        { dsl with controls :=
            { dsl.controls with max_slippage_bps := limits.max_slippage_bps } }
      else dsl
    let clamped : List String :=
      if dsl.controls.max_slippage_bps > limits.max_slippage_bps then
        [slippageClampedMsg dsl.controls.max_slippage_bps limits.max_slippage_bps]
      else []
    -- 4. Spend: reject if any action exceeds hard cap
    let spendErrors : List String :=
      clampedStrategy.actions.filterMap (fun a =>
        if a.amount_usdc > limits.max_spend_usdc then
          some (actionOverCapMsg a.amount_usdc limits.max_spend_usdc)
        else none)
    -- 5. Expiry required (schema enforces > 0, but double-check)
    let expiryErrors : List String :=
      if clampedStrategy.controls.expires_in_minutes ≤ 0 then
        ["Expiry must be a positive number of minutes"]
      else []
    let errors := pairErrors ++ spendErrors ++ expiryErrors
    if !errors.isEmpty then
      { valid := false, strategy := none, errors := errors, clamped := clamped }
    else
      { valid := true, strategy := some clampedStrategy, errors := [],
        clamped := clamped }

/-! ## Risk Re-checker (`src/risk`, `checkRisk`) -/

structure RiskConfig where
  max_spend_usdc : ℚ
  max_slippage_bps : ℤ
  allowed_pairs : List String
  max_expires_minutes : ℤ
deriving DecidableEq, Repr

structure RiskCheckResult where
  passed : Bool
  violations : List String
deriving DecidableEq, Repr

/-- Total spend of a strategy: the sum of `amount_usdc` over all actions,
as computed by `strategy.actions.reduce((sum, a) => sum + a.amount_usdc, 0)`. -/
def totalSpend (s : StrategyDSL) : ℚ :=
  s.actions.foldl (fun sum a => sum + a.amount_usdc) 0

/-- Violation message pushed by the pair check of `checkRisk`. -/
def pairViolationMsg (pair : String) : String :=
  "Pair \"" ++ pair ++ "\" not in allowlist"

/-- Violation message pushed by the aggregate-spend check of `checkRisk`. -/
def spendViolationMsg (total cap : ℚ) : String :=
  "Total spend " ++ toString total ++ " USDC exceeds cap of " ++
    toString cap ++ " USDC"

/-- Violation message pushed by the slippage check of `checkRisk`. -/
def slippageViolationMsg (slippage maxSlippage : ℤ) : String :=
  "Slippage " ++ toString slippage ++ " bps exceeds max of " ++
    toString maxSlippage ++ " bps"

/-- Violation message pushed by the expiry check of `checkRisk`. -/
def expiryViolationMsg (expiry maxExpiry : ℤ) : String :=
  "Expiry " ++ toString expiry ++ " min exceeds max of " ++
    toString maxExpiry ++ " min"

/-- Final safety check before execution (`checkRisk` of `src/risk`).
The four checks push their violations sequentially and independently;
no check short-circuits the ones after it. -/
def checkRisk (strategy : StrategyDSL) (config : RiskConfig) : RiskCheckResult :=
  let violations : List String :=
    (if !config.allowed_pairs.contains strategy.pair then
      [pairViolationMsg strategy.pair]
    else []) ++
    (if totalSpend strategy > config.max_spend_usdc then
      [spendViolationMsg (totalSpend strategy) config.max_spend_usdc]
    else []) ++
    (if strategy.controls.max_slippage_bps > config.max_slippage_bps then
      [slippageViolationMsg strategy.controls.max_slippage_bps config.max_slippage_bps]
    else []) ++
    (if strategy.controls.expires_in_minutes > config.max_expires_minutes then
      [expiryViolationMsg strategy.controls.expires_in_minutes config.max_expires_minutes]
    else [])
  { passed := violations.isEmpty, violations := violations }

/-! ## Helper lemmas: the four `checkRisk` message shapes are pairwise
distinguishable by their first character. -/

lemma string_ne_of_head_ne {s t : String} {c d : Char}
    (hs : s.data.head? = some c) (ht : t.data.head? = some d) (h : c ≠ d) :
    s ≠ t := by
  intro he
  rw [he, ht] at hs
  exact h (Option.some.inj hs).symm

lemma expiryMsg_ne_pairMsg (e m : ℤ) (p : String) :
    expiryViolationMsg e m ≠ pairViolationMsg p :=
  string_ne_of_head_ne (c := 'E') (d := 'P') rfl rfl (by decide)

lemma expiryMsg_ne_spendMsg (e m : ℤ) (t c : ℚ) :
    expiryViolationMsg e m ≠ spendViolationMsg t c :=
  string_ne_of_head_ne (c := 'E') (d := 'T') rfl rfl (by decide)

lemma expiryMsg_ne_slippageMsg (e m a b : ℤ) :
    expiryViolationMsg e m ≠ slippageViolationMsg a b :=
  string_ne_of_head_ne (c := 'E') (d := 'S') rfl rfl (by decide)

/-- C3: in the orchestrator's risk re-check, the expiry violation branch is
unreachable: for every strategy `s`, `checkRisk(s, config)` with
`config.max_expires_minutes = s.controls.expires_in_minutes` (the config the
orchestrator builds at `agent-workflow.ts` step 6) never includes an expiry
violation — the expiry re-check always passes. -/
theorem c3_expiry_recheck_always_passes (s : StrategyDSL) (cap : ℚ) (slip : ℤ)
    (pairs : List String) (e m : ℤ) :
    expiryViolationMsg e m ∉
      (checkRisk s
        { max_spend_usdc := cap, max_slippage_bps := slip,
          allowed_pairs := pairs,
          max_expires_minutes := s.controls.expires_in_minutes }).violations := by
  intro h
  simp only [checkRisk, List.mem_append] at h
  rcases h with ((h | h) | h) | h
  · split at h
    · exact expiryMsg_ne_pairMsg e m s.pair (List.mem_singleton.mp h)
    · exact absurd h (List.not_mem_nil _)
  · split at h
    · exact expiryMsg_ne_spendMsg e m (totalSpend s) cap (List.mem_singleton.mp h)
    · exact absurd h (List.not_mem_nil _)
  · split at h
    · exact expiryMsg_ne_slippageMsg e m s.controls.max_slippage_bps slip
        (List.mem_singleton.mp h)
    · exact absurd h (List.not_mem_nil _)
  · rw [if_neg (lt_irrefl s.controls.expires_in_minutes)] at h
    exact absurd h (List.not_mem_nil _)

/-- C2: for every input accepted by `validateStrategy` (`valid = true`), the
returned strategy satisfies `controls.max_slippage_bps ≤ limits.max_slippage_bps`
even when the input exceeded that limit, and re-running `validateStrategy` on
the returned strategy with the same limits produces an empty `clamped` list
(clamping is idempotent). -/
theorem c2_slippage_clamped_and_idempotent (dsl : StrategyDSL)
    (limits : ValidationLimits) (out : StrategyDSL)
    (hvalid : (validateStrategy dsl limits).valid = true)
    (hsome : (validateStrategy dsl limits).strategy = some out) :
    out.controls.max_slippage_bps ≤ limits.max_slippage_bps ∧
    (validateStrategy out limits).clamped = [] := by
  have hslip : out.controls.max_slippage_bps ≤ limits.max_slippage_bps := by
    simp only [validateStrategy] at hsome
    repeat' split at hsome
    all_goals simp at hsome
    all_goals subst hsome
    all_goals try simp
    all_goals omega
  refine ⟨hslip, ?_⟩
  simp only [validateStrategy]
  split
  · rfl
  · have hnoclamp : ¬ (out.controls.max_slippage_bps > limits.max_slippage_bps) :=
      not_lt.mpr hslip
    simp only [if_neg hnoclamp, apply_ite ValidationResult.clamped, ite_self]

/-- Sample over-slippage strategy for the C2 witness: slippage 400 bps against
a hard max of 75 bps, which the Limit Enforcer clamps. -/
def c2SampleStrategy : StrategyDSL :=
  { pair := "ETH/USDC",
    conditions := [{ type := ConditionType.price_below, value := 3000 }],
    actions := [{ type := ActionType.swap, amount_usdc := 100,
                  direction := Direction.buy }],
    controls := { max_slippage_bps := 400, approval_mode := ApprovalMode.auto,
                  expires_in_minutes := 60 } }

/-- Limits for the C2 witness. -/
def c2SampleLimits : ValidationLimits :=
  { allowed_pairs := ["ETH/USDC"], max_spend_usdc := 500, max_slippage_bps := 75 }

/-- The clamped output for the C2 witness. -/
def c2SampleOut : StrategyDSL :=
  { c2SampleStrategy with controls :=
      { c2SampleStrategy.controls with max_slippage_bps := 75 } }

theorem c2_witness :
    (validateStrategy c2SampleStrategy c2SampleLimits).valid = true ∧
    (validateStrategy c2SampleStrategy c2SampleLimits).strategy = some c2SampleOut ∧
    (c2SampleOut.controls.max_slippage_bps ≤ c2SampleLimits.max_slippage_bps ∧
     (validateStrategy c2SampleOut c2SampleLimits).clamped = []) :=
  ⟨by decide, by decide,
   c2_slippage_clamped_and_idempotent c2SampleStrategy c2SampleLimits c2SampleOut
     (by decide) (by decide)⟩

/-- C6: the two spend checks differ deliberately. For every strategy whose
pair is allowed and slippage is within limits, where each individual action's
`amount_usdc` is ≤ the hard cap but the sum over all actions exceeds it,
`validateStrategy` returns `valid = true` while `checkRisk` (with the same cap
as `max_spend_usdc`) returns `passed = false` with an aggregate-spend
violation; `checkRisk` accumulates every applicable violation without
short-circuiting (here: the whole violation list is the spend violation
followed by the expiry check's independent contribution). -/
theorem c6_per_action_vs_aggregate_spend (s : StrategyDSL) (allowed : List String)
    (cap : ℚ) (slip maxExp : ℤ)
    (hschema : schemaOk s = true)
    (hpair : allowed.contains s.pair = true)
    (hslip : s.controls.max_slippage_bps ≤ slip)
    (hper : ∀ a ∈ s.actions, a.amount_usdc ≤ cap)
    (hsum : totalSpend s > cap) :
    (validateStrategy s ⟨allowed, cap, slip⟩).valid = true ∧
    (checkRisk s ⟨cap, slip, allowed, maxExp⟩).passed = false ∧
    spendViolationMsg (totalSpend s) cap ∈
      (checkRisk s ⟨cap, slip, allowed, maxExp⟩).violations ∧
    (checkRisk s ⟨cap, slip, allowed, maxExp⟩).violations =
      spendViolationMsg (totalSpend s) cap ::
      (if s.controls.expires_in_minutes > maxExp then
        [expiryViolationMsg s.controls.expires_in_minutes maxExp] else []) := by
  have hexp : 0 < s.controls.expires_in_minutes := by
    simp only [schemaOk, Bool.and_eq_true, decide_eq_true_eq] at hschema
    exact hschema.2
  have hmem : s.pair ∈ allowed := by simpa using hpair
  have hfm : s.actions.filterMap (fun a =>
      if a.amount_usdc > cap then some (actionOverCapMsg a.amount_usdc cap)
      else none) = [] :=
    List.filterMap_eq_nil_iff.mpr (fun a ha => by
      rw [if_neg (not_lt.mpr (hper a ha))])
  refine ⟨?_, ?_, ?_, ?_⟩
  · simp only [validateStrategy, hschema, Bool.not_true, Bool.false_eq_true,
      if_false, hpair, if_neg (not_lt.mpr hslip), hfm,
      if_neg (not_le.mpr hexp)]
    simp
  · simp [checkRisk, hpair, hmem, hsum, if_neg (not_lt.mpr hslip)]
  · simp [checkRisk, hpair, hmem, hsum, if_neg (not_lt.mpr hslip)]
  · simp [checkRisk, hpair, hmem, hsum, if_neg (not_lt.mpr hslip)]

/-- Sample strategy for the C6 witness: two 300 USDC actions, each below the
500 USDC hard cap, summing to 600 USDC above it. -/
def c6SampleStrategy : StrategyDSL :=
  { pair := "ETH/USDC",
    conditions := [{ type := ConditionType.price_below, value := 3000 }],
    actions := [{ type := ActionType.swap, amount_usdc := 300,
                  direction := Direction.buy },
                { type := ActionType.swap, amount_usdc := 300,
                  direction := Direction.sell }],
    controls := { max_slippage_bps := 50, approval_mode := ApprovalMode.auto,
                  expires_in_minutes := 60 } }

theorem c6_witness :
    (schemaOk c6SampleStrategy = true ∧
     (["ETH/USDC"].contains c6SampleStrategy.pair) = true ∧
     c6SampleStrategy.controls.max_slippage_bps ≤ 75 ∧
     (∀ a ∈ c6SampleStrategy.actions, a.amount_usdc ≤ 500) ∧
     totalSpend c6SampleStrategy > 500) ∧
    ((validateStrategy c6SampleStrategy ⟨["ETH/USDC"], 500, 75⟩).valid = true ∧
     (checkRisk c6SampleStrategy ⟨500, 75, ["ETH/USDC"], 60⟩).passed = false ∧
     spendViolationMsg (totalSpend c6SampleStrategy) 500 ∈
       (checkRisk c6SampleStrategy ⟨500, 75, ["ETH/USDC"], 60⟩).violations ∧
     (checkRisk c6SampleStrategy ⟨500, 75, ["ETH/USDC"], 60⟩).violations =
       spendViolationMsg (totalSpend c6SampleStrategy) 500 ::
       (if c6SampleStrategy.controls.expires_in_minutes > 60 then
         [expiryViolationMsg c6SampleStrategy.controls.expires_in_minutes 60]
       else [])) :=
  ⟨⟨by decide, by decide, by decide, by decide, by decide⟩,
   c6_per_action_vs_aggregate_spend c6SampleStrategy ["ETH/USDC"] 500 75 60
     (by decide) (by decide) (by decide) (by decide) (by decide)⟩

/-! ## Economic Reasoning Engine (`src/economic/reasoning-engine.ts`) -/

inductive PurchaseDecision
  | proceed
  | skip
deriving DecidableEq, Repr

structure ReasonCode where
  tool : String
  cost_usdc : ℚ
  budget_remaining_usdc : ℚ
  decision : PurchaseDecision
  reason : String
deriving DecidableEq, Repr

/-- Model of JS `Number.prototype.toFixed(2)` used in the reason strings:
round to the nearest cent (ties away from the floor, matching rounding of
the decimal expansion) and render with two decimal places. -/
def toFixed2 (q : ℚ) : String :=
  let cents : ℤ := round (q * 100)
  let sign := if cents < 0 then "-" else ""
  let a := cents.natAbs
  let frac := a % 100
  sign ++ toString (a / 100) ++ "." ++
    (if frac < 10 then "0" ++ toString frac else toString frac)

/-- State of an `EconomicReasoningEngine` instance: the mutable
`budgetRemaining` and the append-only `reasonCodes` ledger. -/
structure EngineState where
  budgetRemaining : ℚ
  reasonCodes : List ReasonCode
deriving DecidableEq, Repr

/-- Fresh engine: `new EconomicReasoningEngine(initialBudget)`. -/
def mkEngine (initialBudget : ℚ) : EngineState :=
  { budgetRemaining := initialBudget, reasonCodes := [] }

/-- `shouldPurchase(toolName, costUsdc)`: decides whether to purchase data
from a tool and appends one reason code; returns the decision and the
updated engine state. -/
def shouldPurchase (st : EngineState) (toolName : String) (costUsdc : ℚ) :
    Bool × EngineState :=
  let canAfford := decide (st.budgetRemaining ≥ costUsdc)
  let decision := if canAfford then PurchaseDecision.proceed
                  else PurchaseDecision.skip
  let reason :=
    if canAfford then
      toolName ++ " costs $" ++ toFixed2 costUsdc ++ ". Budget remaining $" ++
        toFixed2 st.budgetRemaining ++ ". Proceeding."
    else
      toolName ++ " costs $" ++ toFixed2 costUsdc ++ ". Budget remaining $" ++
        toFixed2 st.budgetRemaining ++ ". Skipping."
  (canAfford,
   { st with reasonCodes := st.reasonCodes ++
      [{ tool := toolName, cost_usdc := costUsdc,
         budget_remaining_usdc := st.budgetRemaining,
         decision := decision, reason := reason }] })

/-- `recordSpend(amount)`: records a successful spend. -/
def recordSpend (st : EngineState) (amount : ℚ) : EngineState :=
  { st with budgetRemaining := st.budgetRemaining - amount }

/-- `getBudgetRemaining()`. -/
def getBudgetRemaining (st : EngineState) : ℚ :=
  st.budgetRemaining

/-- `getReasonCodes()`: returns a copy of the reason-code ledger. -/
def getReasonCodes (st : EngineState) : List ReasonCode :=
  st.reasonCodes

/-- C7: `shouldPurchase(tool, cost)` returns true iff `cost ≤` the remaining
budget (a tie yields true), the call leaves the remaining budget unchanged
(only `recordSpend` debits it), and every call appends exactly one reason code
recording the budget at decision time. -/
theorem c7_shouldPurchase_pure_decision (st : EngineState) (toolName : String)
    (costUsdc : ℚ) :
    ((shouldPurchase st toolName costUsdc).1 = true ↔
      costUsdc ≤ getBudgetRemaining st) ∧
    getBudgetRemaining (shouldPurchase st toolName costUsdc).2 =
      getBudgetRemaining st ∧
    ∃ rc,
      getReasonCodes (shouldPurchase st toolName costUsdc).2 =
        getReasonCodes st ++ [rc] ∧
      rc.tool = toolName ∧
      rc.cost_usdc = costUsdc ∧
      rc.budget_remaining_usdc = getBudgetRemaining st := by
  refine ⟨by simp [shouldPurchase, getBudgetRemaining, ge_iff_le], rfl, ?_⟩
  exact ⟨_, rfl, rfl, rfl, rfl⟩

/-- C10: `recordSpend(amount)` unconditionally decreases the remaining budget
by exactly `amount`, with no affordability check and no floor at zero: an
overspend makes `getBudgetRemaining()` negative, after which `shouldPurchase`
returns false for every positive cost. -/
theorem c10_recordSpend_unconditional (st : EngineState) (amount : ℚ)
    (hover : getBudgetRemaining st < amount) (toolName : String) (cost : ℚ)
    (hpos : 0 < cost) :
    getBudgetRemaining (recordSpend st amount) =
      getBudgetRemaining st - amount ∧
    getBudgetRemaining (recordSpend st amount) < 0 ∧
    (shouldPurchase (recordSpend st amount) toolName cost).1 = false := by
  refine ⟨rfl, ?_, ?_⟩
  · simp only [getBudgetRemaining, recordSpend] at *
    linarith
  · have hneg : (recordSpend st amount).budgetRemaining < 0 := by
      simp only [getBudgetRemaining, recordSpend] at *
      linarith
    simp only [shouldPurchase, decide_eq_false_iff_not, ge_iff_le, not_le]
    linarith

theorem c10_witness :
    (getBudgetRemaining (mkEngine 10) < 15 ∧ (0:ℚ) < 1) ∧
    (getBudgetRemaining (recordSpend (mkEngine 10) 15) =
      getBudgetRemaining (mkEngine 10) - 15 ∧
     getBudgetRemaining (recordSpend (mkEngine 10) 15) < 0 ∧
     (shouldPurchase (recordSpend (mkEngine 10) 15) "market-data" 1).1 = false) :=
  ⟨⟨by decide, by decide⟩,
   c10_recordSpend_unconditional (mkEngine 10) 15 (by decide) "market-data" 1
     (by decide)⟩

/-! ## x402 Payment Client (`src/payment/x402-client.ts`) -/

inductive PaymentStatus
  | success
  | failed
deriving DecidableEq, Repr

structure PaymentRecord where
  tool : String
  cost_usdc : ℚ
  tx_hash : String
  timestamp : String
  status : PaymentStatus
deriving DecidableEq, Repr

structure HttpResponse where
  status : Nat
  body : String
deriving DecidableEq, Repr

/-- JS `Response.ok`: the HTTP status is in the inclusive range 200–299. -/
def respOk (r : HttpResponse) : Bool :=
  decide (200 ≤ r.status) && decide (r.status < 300)

/-- The environment a single `fetchWithPayment` call observes: the two HTTP
responses and the injected `signPayment` result and clock reading. -/
structure FetchEnv where
  firstResponse : HttpResponse
  retryResponse : HttpResponse
  signedTx : String
  now : String
deriving DecidableEq, Repr

/-- `X402PaymentClient.fetchWithPayment(toolUrl, signPayment, toolCostUsdc)`:
given the client's current `records` ledger and the call's observed
environment, returns the call's result (payload or thrown error) together
with the updated ledger. -/
def fetchWithPayment (records : List PaymentRecord) (toolUrl : String)
    (env : FetchEnv) (toolCostUsdc : ℚ) :
    Except String String × List PaymentRecord :=
  if env.firstResponse.status = 402 then
    let txHash := env.signedTx
    let record : PaymentRecord :=
      { tool := toolUrl, cost_usdc := toolCostUsdc, tx_hash := txHash,
        timestamp := env.now, status := PaymentStatus.success }
    if !respOk env.retryResponse then
      let failedRecord := { record with status := PaymentStatus.failed }
      (Except.error
        ("Paid tool retry failed: HTTP " ++ toString env.retryResponse.status),
       records ++ [failedRecord])
    else
      (Except.ok env.retryResponse.body, records ++ [record])
  else if !respOk env.firstResponse then
    (Except.error
      ("Tool request failed: HTTP " ++ toString env.firstResponse.status),
     records)
  else
    (Except.ok env.firstResponse.body, records)

/-- `X402PaymentClient.getTotalSpent()`: total USDC across successful
payments. -/
def getTotalSpent (records : List PaymentRecord) : ℚ :=
  (records.filter (fun r => decide (r.status = PaymentStatus.success))).foldl
    (fun sum r => sum + r.cost_usdc) 0

lemma foldl_add_cost (l : List PaymentRecord) (init : ℚ) :
    l.foldl (fun sum r => sum + r.cost_usdc) init =
      init + (l.map (fun r => r.cost_usdc)).sum := by
  induction l generalizing init with
  | nil => simp
  | cons a t ih => simp [ih]; ring

lemma getTotalSpent_eq_sum (l : List PaymentRecord) :
    getTotalSpent l =
      (l.map (fun r =>
        if r.status = PaymentStatus.success then r.cost_usdc else 0)).sum := by
  unfold getTotalSpent
  rw [foldl_add_cost, zero_add]
  induction l with
  | nil => simp
  | cons a t ih =>
    by_cases h : a.status = PaymentStatus.success <;>
      simp [List.filter_cons, h, ih]

/-- C8: `getTotalSpent()` equals the sum of `cost_usdc` over payment records
with status `success` only; when a 402 retry fails, a record with status
`failed` is appended (never dropped), `fetchWithPayment` raises a
retry-failure error, and the failed record contributes nothing to
`getTotalSpent`. -/
theorem c8_retry_failure_audited (records : List PaymentRecord)
    (toolUrl : String) (env : FetchEnv) (toolCostUsdc : ℚ)
    (h402 : env.firstResponse.status = 402)
    (hfail : respOk env.retryResponse = false) :
    (fetchWithPayment records toolUrl env toolCostUsdc).1 =
      Except.error
        ("Paid tool retry failed: HTTP " ++ toString env.retryResponse.status) ∧
    (fetchWithPayment records toolUrl env toolCostUsdc).2 =
      records ++ [{ tool := toolUrl, cost_usdc := toolCostUsdc,
                    tx_hash := env.signedTx, timestamp := env.now,
                    status := PaymentStatus.failed }] ∧
    getTotalSpent (fetchWithPayment records toolUrl env toolCostUsdc).2 =
      getTotalSpent records ∧
    getTotalSpent records =
      (records.map (fun r =>
        if r.status = PaymentStatus.success then r.cost_usdc else 0)).sum := by
  have hrec :
      (fetchWithPayment records toolUrl env toolCostUsdc).2 =
        records ++ [{ tool := toolUrl, cost_usdc := toolCostUsdc,
                      tx_hash := env.signedTx, timestamp := env.now,
                      status := PaymentStatus.failed }] := by
    simp [fetchWithPayment, h402, hfail]
  refine ⟨by simp [fetchWithPayment, h402, hfail], hrec, ?_,
    getTotalSpent_eq_sum records⟩
  rw [hrec, getTotalSpent_eq_sum, getTotalSpent_eq_sum records, List.map_append,
    List.sum_append]
  simp

/-- A ledger with one successful payment, for the C8 witness. -/
def c8PriorRecords : List PaymentRecord :=
  [{ tool := "https://data.example/price", cost_usdc := 2, tx_hash := "0xaaa",
     timestamp := "t0", status := PaymentStatus.success }]

/-- Environment for the C8 witness: first request is a 402 pay-wall, the
paid retry comes back HTTP 500. -/
def c8Env : FetchEnv :=
  { firstResponse := { status := 402, body := "" },
    retryResponse := { status := 500, body := "" },
    signedTx := "0xbbb", now := "t1" }

theorem c8_witness :
    (c8Env.firstResponse.status = 402 ∧ respOk c8Env.retryResponse = false) ∧
    ((fetchWithPayment c8PriorRecords "https://data.example/price" c8Env 3).1 =
      Except.error
        ("Paid tool retry failed: HTTP " ++
          toString c8Env.retryResponse.status) ∧
     (fetchWithPayment c8PriorRecords "https://data.example/price" c8Env 3).2 =
      c8PriorRecords ++
        [{ tool := "https://data.example/price", cost_usdc := 3,
           tx_hash := c8Env.signedTx, timestamp := c8Env.now,
           status := PaymentStatus.failed }] ∧
     getTotalSpent
        (fetchWithPayment c8PriorRecords "https://data.example/price" c8Env 3).2 =
      getTotalSpent c8PriorRecords ∧
     getTotalSpent c8PriorRecords =
      (c8PriorRecords.map (fun r =>
        if r.status = PaymentStatus.success then r.cost_usdc else 0)).sum) :=
  ⟨⟨by decide, by decide⟩,
   c8_retry_failure_audited c8PriorRecords "https://data.example/price" c8Env 3
     (by decide) (by decide)⟩

/-! ## BITE Encrypted Intent Codec (`src/encryption`, `BiteIntentHandler`) -/

/-- Modelled from the spec: the SHA-256 hex digest from `node:crypto` is an
external primitive; it is modelled as an opaque injective tagging of its
input (no claim depends on one-wayness of the digest). -/
def sha256Hex (input : String) : String :=
  "sha256(" ++ input ++ ")"

/-- Modelled from the spec: AES-256-GCM from `node:crypto` is an external
primitive. Per §4.3 it is ideal authenticated encryption: the sealed payload
is the canonically serialized plaintext bound to the sealing key and nonce,
and decryption authenticates before returning — a wrong key or tampered
payload is a hard failure, never garbage output. -/
structure SealedPayload where
  plaintext : StrategyDSL
  sealedWithKey : ℕ
  sealedWithIv : ℕ
deriving DecidableEq, Repr

structure PublicMetadata where
  intent_id : String
  budget_cap_usdc : ℚ
  pair : String
  expires_at : ℤ
  authorization_hash : String
deriving DecidableEq, Repr

structure EncryptedIntent where
  intent_id : String
  encrypted_payload : SealedPayload
  iv : ℕ
  public_metadata : PublicMetadata
  created_at : ℤ
deriving DecidableEq, Repr

/-- `BiteIntentHandler.encrypt(strategy)`: seals a validated strategy under
the handler's key. The per-call randomness (`uuidv4()` intent id, random IV)
and the clock reading are injected as arguments `intentId`, `iv`, `nowMs`. -/
def biteEncrypt (key : ℕ) (intentId : String) (iv : ℕ) (nowMs : ℤ)
    (strategy : StrategyDSL) : EncryptedIntent :=
  { intent_id := intentId,
    encrypted_payload :=
      { plaintext := strategy, sealedWithKey := key, sealedWithIv := iv },
    iv := iv,
    public_metadata :=
      { intent_id := intentId,
        budget_cap_usdc := totalSpend strategy,
        pair := strategy.pair,
        expires_at := nowMs + strategy.controls.expires_in_minutes * 60000,
        authorization_hash := sha256Hex intentId },
    created_at := nowMs }

/-- `BiteIntentHandler.decrypt(intent)`: authenticates and decrypts under the
handler's key; throws (`Except.error`) when the GCM authentication tag does
not verify, which is exactly the wrong-key / tampered-payload case in the
ideal model. -/
def biteDecrypt (key : ℕ) (intent : EncryptedIntent) :
    Except String StrategyDSL :=
  if intent.encrypted_payload.sealedWithKey = key then
    Except.ok intent.encrypted_payload.plaintext
  else
    Except.error "Unsupported state or unable to authenticate data"

/-- C1: for every well-formed strategy `s` and a fixed key,
`decrypt(encrypt(s))` equals `s`; and decrypt invoked on a handler holding a
different key throws rather than returning a strategy. -/
theorem c1_roundtrip_and_wrong_key_fails (key otherKey : ℕ) (intentId : String)
    (iv : ℕ) (nowMs : ℤ) (s : StrategyDSL) (hne : otherKey ≠ key) :
    biteDecrypt key (biteEncrypt key intentId iv nowMs s) = Except.ok s ∧
    ∃ msg,
      biteDecrypt otherKey (biteEncrypt key intentId iv nowMs s) =
        Except.error msg := by
  refine ⟨by simp [biteDecrypt, biteEncrypt], ?_⟩
  refine ⟨"Unsupported state or unable to authenticate data", ?_⟩
  simp [biteDecrypt, biteEncrypt]
  intro h
  exact absurd h.symm hne

/-- The spec §8 example strategy (price_below 3000 → swap 100 buy). -/
def demoStrategy : StrategyDSL :=
  { pair := "ETH/USDC",
    conditions := [{ type := ConditionType.price_below, value := 3000 }],
    actions := [{ type := ActionType.swap, amount_usdc := 100,
                  direction := Direction.buy }],
    controls := { max_slippage_bps := 50, approval_mode := ApprovalMode.auto,
                  expires_in_minutes := 60 } }

theorem c1_witness :
    ((7:ℕ) ≠ 3) ∧
    (biteDecrypt 3 (biteEncrypt 3 "intent-1" 99 1000 demoStrategy) =
      Except.ok demoStrategy ∧
     ∃ msg,
       biteDecrypt 7 (biteEncrypt 3 "intent-1" 99 1000 demoStrategy) =
         Except.error msg) :=
  ⟨by decide,
   c1_roundtrip_and_wrong_key_fails 3 7 "intent-1" 99 1000 demoStrategy
     (by decide)⟩

/-! ## Trade Executor (`src/execution/trade-executor.ts`) -/

structure ExecutionResult where
  success : Bool
  tx_hash : Option String
  error : Option String
deriving DecidableEq, Repr

/-- Modelled from the spec: `JSON.stringify(strategy)` — a canonical textual
serialization of a strategy, modelled via the derived `Repr`. -/
def serializeStrategy (s : StrategyDSL) : String :=
  toString (repr s)

/-- The display name of an action type, as it appears in error messages. -/
def actionTypeName : ActionType → String
  | ActionType.swap => "swap"

/-- `TradeExecutor.execute(strategy)` with the per-call random salt injected
(`crypto.randomBytes(16).toString("hex")` of the simulated tx hash). -/
def executeTrade (simulate : Bool) (salt : String) (strategy : StrategyDSL) :
    ExecutionResult :=
  if strategy.actions.isEmpty then
    { success := false, tx_hash := none, error := some "No actions to execute" }
  else
    match strategy.actions.find? (fun a => decide (a.type ≠ ActionType.swap)) with
    | some a =>
      { success := false, tx_hash := none,
        error := some ("Unsupported action type: " ++ actionTypeName a.type) }
    | none =>
      if simulate then
        { success := true,
          tx_hash := some ("0x" ++ sha256Hex (serializeStrategy strategy ++ salt)),
          error := none }
      else
        { success := false, tx_hash := none,
          error := some "Real execution not yet implemented" }

/-! ## Receipt Assembler (`src/receipt/receipt-logger.ts`) -/

inductive ReceiptStatus
  | executed
  | aborted
  | expired
deriving DecidableEq, Repr

structure ParserMetadata where
  model : String
  confidence : ℚ
deriving DecidableEq, Repr

structure ParserOutput where
  strategy_dsl : StrategyDSL
  explanation : String
  risk_notes : List String
  parser_metadata : ParserMetadata
deriving DecidableEq, Repr

structure ExecutionReceipt where
  intent_id : String
  raw_user_prompt : String
  parser_explanation : String
  parser_risk_notes : List String
  parser_metadata : ParserMetadata
  validated_strategy : StrategyDSL
  encrypted_intent_hash : String
  payments : List PaymentRecord
  reason_codes : List ReasonCode
  conditions_met : Bool
  execution_tx_hash : Option String
  total_spend_usdc : ℚ
  status : ReceiptStatus
  timestamp : ℤ
deriving DecidableEq, Repr

structure ReceiptParams where
  intentId : String
  rawPrompt : String
  parserOutput : ParserOutput
  validatedStrategy : StrategyDSL
  encryptedIntentPayload : String
  payments : List PaymentRecord
  reasonCodes : List ReasonCode
  conditionsMet : Bool
  executionTxHash : Option String
  totalSpendUsdc : ℚ
  status : ReceiptStatus
deriving DecidableEq, Repr

/-- `ReceiptLogger.buildReceipt(params)`: pure constructor; the encrypted
payload is replaced by its SHA-256 hash and the server clock reading is
injected as `nowMs`. -/
def buildReceipt (params : ReceiptParams) (nowMs : ℤ) : ExecutionReceipt :=
  { intent_id := params.intentId,
    raw_user_prompt := params.rawPrompt,
    parser_explanation := params.parserOutput.explanation,
    parser_risk_notes := params.parserOutput.risk_notes,
    parser_metadata := params.parserOutput.parser_metadata,
    validated_strategy := params.validatedStrategy,
    encrypted_intent_hash := sha256Hex params.encryptedIntentPayload,
    payments := params.payments,
    reason_codes := params.reasonCodes,
    conditions_met := params.conditionsMet,
    execution_tx_hash := params.executionTxHash,
    total_spend_usdc := params.totalSpendUsdc,
    status := params.status,
    timestamp := nowMs }

/-! ## Workflow Orchestrator (`src/workflow/agent-workflow.ts`) -/

structure WorkflowConfig where
  parser_endpoint : String
  allowed_pairs : List String
  max_spend_usdc_hard : ℚ
  max_slippage_bps_hard : ℤ
  budget_usdc : ℚ
deriving DecidableEq, Repr

/-- Modelled from the spec: the hex encoding of the sealed ciphertext bytes
(`encryptedIntent.encrypted_payload`), rendered via the derived `Repr` of the
ideal sealed payload. -/
def sealedPayloadHex (p : SealedPayload) : String :=
  toString (repr p)

/-- The per-run injected environment of `AgentWorkflow.run`: the fresh
intent id and IV drawn during encryption, the clock reading, and the random
salt drawn by the simulated executor. -/
structure RunEnv where
  intentId : String
  iv : ℕ
  nowMs : ℤ
  execSalt : String
deriving DecidableEq, Repr

/-- Which effectful collaborators a run invoked; used to state
never-invoked properties. -/
structure RunEvents where
  encryptCalled : Bool
  checkerCalled : Bool
  decryptCalled : Bool
  executeCalled : Bool
deriving DecidableEq, Repr

/-- `AgentWorkflow.run(userPrompt, conditionChecker)` after the external
parser returned `parserOutput`: validate, encrypt, poll conditions, decrypt,
re-check risk, execute, and build exactly one receipt. The returned
`RunEvents` records which collaborators were invoked. A thrown error
(decryption failure is the only uncaught one in this scope) is `Except.error`. -/
def runWorkflow (config : WorkflowConfig) (key : ℕ) (rnd : RunEnv)
    (userPrompt : String) (parserOutput : ParserOutput)
    (checker : StrategyDSL → Bool) :
    Except String (ExecutionReceipt × Option EncryptedIntent) × RunEvents :=
  -- 2. Validate & enforce hard limits
  let validation := validateStrategy parserOutput.strategy_dsl
    { allowed_pairs := config.allowed_pairs,
      max_spend_usdc := config.max_spend_usdc_hard,
      max_slippage_bps := config.max_slippage_bps_hard }
  match validation.valid, validation.strategy with
  | true, some strategy =>
    -- 3. Encrypt strategy (BITE v2)
    let encryptedIntent := biteEncrypt key rnd.intentId rnd.iv rnd.nowMs strategy
    -- 4. Poll conditions
    let conditionsMet := checker strategy
    if !conditionsMet then
      (Except.ok
        (buildReceipt
          { intentId := encryptedIntent.intent_id,
            rawPrompt := userPrompt,
            parserOutput := parserOutput,
            validatedStrategy := strategy,
            encryptedIntentPayload :=
              sealedPayloadHex encryptedIntent.encrypted_payload,
            payments := [], reasonCodes := [],
            conditionsMet := false, executionTxHash := none,
            totalSpendUsdc := 0, status := ReceiptStatus.expired } rnd.nowMs,
         some encryptedIntent),
       { encryptCalled := true, checkerCalled := true,
         decryptCalled := false, executeCalled := false })
    else
      -- 5. Decrypt intent
      match biteDecrypt key encryptedIntent with
      | Except.error e =>
        (Except.error e,
         { encryptCalled := true, checkerCalled := true,
           decryptCalled := true, executeCalled := false })
      | Except.ok decrypted =>
        -- 6. Re-validate risk at execution time
        let riskCheck := checkRisk decrypted
          { max_spend_usdc := config.max_spend_usdc_hard,
            max_slippage_bps := config.max_slippage_bps_hard,
            allowed_pairs := config.allowed_pairs,
            max_expires_minutes := decrypted.controls.expires_in_minutes }
        if !riskCheck.passed then
          (Except.ok
            (buildReceipt
              { intentId := encryptedIntent.intent_id,
                rawPrompt := userPrompt,
                parserOutput := parserOutput,
                validatedStrategy := strategy,
                encryptedIntentPayload :=
                  sealedPayloadHex encryptedIntent.encrypted_payload,
                payments := [], reasonCodes := [],
                conditionsMet := true, executionTxHash := none,
                totalSpendUsdc := 0, status := ReceiptStatus.aborted } rnd.nowMs,
             some encryptedIntent),
           { encryptCalled := true, checkerCalled := true,
             decryptCalled := true, executeCalled := false })
        else
          -- 7. Execute trade
          let executionResult := executeTrade true rnd.execSalt decrypted
          let totalSpendRun :=
            decrypted.actions.foldl (fun sum a => sum + a.amount_usdc) 0
          -- 8. Build receipt
          (Except.ok
            (buildReceipt
              { intentId := encryptedIntent.intent_id,
                rawPrompt := userPrompt,
                parserOutput := parserOutput,
                validatedStrategy := strategy,
                encryptedIntentPayload :=
                  sealedPayloadHex encryptedIntent.encrypted_payload,
                payments := [], reasonCodes := [],
                conditionsMet := true,
                executionTxHash := executionResult.tx_hash,
                totalSpendUsdc := totalSpendRun,
                status :=
                  if executionResult.success then ReceiptStatus.executed
                  else ReceiptStatus.aborted } rnd.nowMs,
             some encryptedIntent),
           { encryptCalled := true, checkerCalled := true,
             decryptCalled := true, executeCalled := true })
  | _, _ =>
    (Except.ok
      (buildReceipt
        { intentId := "none",
          rawPrompt := userPrompt,
          parserOutput := parserOutput,
          validatedStrategy := parserOutput.strategy_dsl,
          encryptedIntentPayload := "",
          payments := [], reasonCodes := [],
          conditionsMet := false, executionTxHash := none,
          totalSpendUsdc := 0, status := ReceiptStatus.aborted } rnd.nowMs,
       none),
     { encryptCalled := false, checkerCalled := false,
       decryptCalled := false, executeCalled := false })

/-- The aborted-at-validation receipt of `AgentWorkflow.run`. -/
def abortedValidationReceipt (userPrompt : String) (parserOutput : ParserOutput)
    (nowMs : ℤ) : ExecutionReceipt :=
  buildReceipt
    { intentId := "none",
      rawPrompt := userPrompt,
      parserOutput := parserOutput,
      validatedStrategy := parserOutput.strategy_dsl,
      encryptedIntentPayload := "",
      payments := [], reasonCodes := [],
      conditionsMet := false, executionTxHash := none,
      totalSpendUsdc := 0, status := ReceiptStatus.aborted } nowMs

/-- C9: for every run whose parsed strategy fails validation,
`AgentWorkflow.run` resolves with an aborted receipt whose payments and
reason codes are empty, `conditions_met` is false, execution reference is
null, total spend is zero, and a null encrypted intent; encryption is never
performed and the condition checker is never invoked on that run. -/
theorem c9_validation_failure_aborts (config : WorkflowConfig) (key : ℕ)
    (rnd : RunEnv) (userPrompt : String) (parserOutput : ParserOutput)
    (checker : StrategyDSL → Bool)
    (hinvalid : (validateStrategy parserOutput.strategy_dsl
      { allowed_pairs := config.allowed_pairs,
        max_spend_usdc := config.max_spend_usdc_hard,
        max_slippage_bps := config.max_slippage_bps_hard }).valid = false) :
    runWorkflow config key rnd userPrompt parserOutput checker =
      (Except.ok (abortedValidationReceipt userPrompt parserOutput rnd.nowMs,
        none),
       { encryptCalled := false, checkerCalled := false,
         decryptCalled := false, executeCalled := false }) ∧
    (abortedValidationReceipt userPrompt parserOutput rnd.nowMs).status =
      ReceiptStatus.aborted ∧
    (abortedValidationReceipt userPrompt parserOutput rnd.nowMs).payments = [] ∧
    (abortedValidationReceipt userPrompt parserOutput rnd.nowMs).reason_codes =
      [] ∧
    (abortedValidationReceipt userPrompt parserOutput rnd.nowMs).conditions_met =
      false ∧
    (abortedValidationReceipt userPrompt parserOutput
      rnd.nowMs).execution_tx_hash = none ∧
    (abortedValidationReceipt userPrompt parserOutput
      rnd.nowMs).total_spend_usdc = 0 := by
  refine ⟨?_, rfl, rfl, rfl, rfl, rfl, rfl⟩
  simp only [runWorkflow, hinvalid, abortedValidationReceipt]

/-- The spec §8 counterexample parser output: the demo strategy with pair
`DOGE/USDC`, outside the allowlist. -/
def dogeParserOutput : ParserOutput :=
  { strategy_dsl := { demoStrategy with pair := "DOGE/USDC" },
    explanation := "Buy the dip",
    risk_notes := [],
    parser_metadata := { model := "byo-claude", confidence := 9/10 } }

/-- Configuration used by the C9 witness. -/
def c9Config : WorkflowConfig :=
  { parser_endpoint := "http://localhost:9999/parse",
    allowed_pairs := ["ETH/USDC"],
    max_spend_usdc_hard := 500,
    max_slippage_bps_hard := 75,
    budget_usdc := 1000 }

theorem c9_witness :
    ((validateStrategy dogeParserOutput.strategy_dsl
      { allowed_pairs := c9Config.allowed_pairs,
        max_spend_usdc := c9Config.max_spend_usdc_hard,
        max_slippage_bps := c9Config.max_slippage_bps_hard }).valid = false) ∧
    (runWorkflow c9Config 3 ⟨"intent-2", 42, 1000, "salt"⟩ "buy DOGE"
        dogeParserOutput (fun _ => true) =
      (Except.ok
        (abortedValidationReceipt "buy DOGE" dogeParserOutput 1000, none),
       { encryptCalled := false, checkerCalled := false,
         decryptCalled := false, executeCalled := false }) ∧
     (abortedValidationReceipt "buy DOGE" dogeParserOutput 1000).status =
       ReceiptStatus.aborted ∧
     (abortedValidationReceipt "buy DOGE" dogeParserOutput 1000).payments = [] ∧
     (abortedValidationReceipt "buy DOGE" dogeParserOutput 1000).reason_codes =
       [] ∧
     (abortedValidationReceipt "buy DOGE" dogeParserOutput 1000).conditions_met =
       false ∧
     (abortedValidationReceipt "buy DOGE" dogeParserOutput
       1000).execution_tx_hash = none ∧
     (abortedValidationReceipt "buy DOGE" dogeParserOutput
       1000).total_spend_usdc = 0) :=
  ⟨by decide,
   c9_validation_failure_aborts c9Config 3 ⟨"intent-2", 42, 1000, "salt"⟩
     "buy DOGE" dogeParserOutput (fun _ => true) (by decide)⟩

/-! ## Trading Dashboard trade lifecycle
(`src/dashboard/trading-dashboard.ts`)

One trade's visible state is its `status` field plus the progress of the
background `startMonitoring` async task that `submitTrade` fires without
awaiting. The JS event loop interleaves three actors on that state:
the synchronous prefix of `startMonitoring` (which sets
`status = "monitoring"`), `cancelTrade`, and the continuation after
`await workflow.run(...)` (which stores the workflow's outcome into
`status` unconditionally). `cancelTrade` only clears the never-populated
`monitoringIntervals` entry — it does not stop the awaited `workflow.run`,
which continues to decryption and execution on its own. -/

inductive TradeStatus
  | pending
  | monitoring
  | executed
  | failed
  | expired
deriving DecidableEq, Repr

/-- Terminal statuses of the documented lifecycle. -/
def terminalStatus : TradeStatus → Bool
  | TradeStatus.executed => true
  | TradeStatus.failed => true
  | TradeStatus.expired => true
  | _ => false

/-- Progress of the background monitoring task for one trade. -/
inductive MonitorPhase
  | notStarted
  | awaitingRun
  | ranExecution
  | finished
deriving DecidableEq, Repr

structure TradeState where
  status : TradeStatus
  phase : MonitorPhase
  execInvoked : Bool
deriving DecidableEq, Repr

/-- A trade as `submitTrade` stores it: `status = "pending"`, monitoring task
fired but not yet entered, no execution performed. -/
def initialTrade : TradeState :=
  { status := TradeStatus.pending, phase := MonitorPhase.notStarted,
    execInvoked := false }

/-- How `startMonitoring`'s continuation maps the workflow receipt status to
a trade status (`trading-dashboard.ts` lines 162–168): `executed ↦ executed`,
`aborted ↦ failed`, anything else `↦ expired`. -/
def statusOfReceipt : ReceiptStatus → TradeStatus
  | ReceiptStatus.executed => TradeStatus.executed
  | ReceiptStatus.aborted => TradeStatus.failed
  | ReceiptStatus.expired => TradeStatus.expired

/-- One event-loop step on a single trade's state, as the code allows them:

* `beginMonitoring` — the synchronous prefix of `startMonitoring` runs and
  sets `status := "monitoring"` before awaiting `workflow.run`.
* `cancelTrade` — a pending/monitoring trade is cancelled: `status :=
  "expired"`. Nothing else changes: the awaited workflow keeps running.
* `workflowExecutes` — while the run is awaited, the workflow reaches
  decryption and invokes the executor; the dashboard state cannot prevent
  this (the guard does not mention `status`).
* `workflowResolvesWithoutExecution` — the awaited run resolves on a path
  that never decrypted/executed (expired or aborted-at-validation), and the
  continuation stores the mapped status unconditionally.
* `workflowResolvesAfterExecution` — the awaited run resolves after
  execution and the continuation stores the mapped status unconditionally. -/
inductive DashStep : TradeState → TradeState → Prop
  | beginMonitoring (s : TradeState) (h : s.phase = MonitorPhase.notStarted) :
      DashStep s
        { s with status := TradeStatus.monitoring,
                 phase := MonitorPhase.awaitingRun }
  | cancelTrade (s : TradeState)
      (h : s.status = TradeStatus.pending ∨ s.status = TradeStatus.monitoring) :
      DashStep s { s with status := TradeStatus.expired }
  | workflowExecutes (s : TradeState) (h : s.phase = MonitorPhase.awaitingRun) :
      DashStep s
        { s with phase := MonitorPhase.ranExecution, execInvoked := true }
  | workflowResolvesWithoutExecution (s : TradeState) (outcome : ReceiptStatus)
      (h : s.phase = MonitorPhase.awaitingRun)
      (ho : outcome ≠ ReceiptStatus.executed) :
      DashStep s
        { s with phase := MonitorPhase.finished,
                 status := statusOfReceipt outcome }
  | workflowResolvesAfterExecution (s : TradeState) (outcome : ReceiptStatus)
      (h : s.phase = MonitorPhase.ranExecution) :
      DashStep s
        { s with phase := MonitorPhase.finished,
                 status := statusOfReceipt outcome }

/-- C4 (refuted): the code allows the interleaving `submitTrade` →
`startMonitoring` begins → `cancelTrade` (trade now holds the terminal
status `expired`, nothing executed) → the still-running workflow decrypts
and executes → its continuation overwrites the terminal status with
`executed`. So a terminal status is reachable from which a later step both
invokes execution and changes the status — refuting both halves of the
monotonicity/cancellation claim. -/
theorem c4_cancelled_trade_still_executes :
    Relation.ReflTransGen DashStep initialTrade
      { status := TradeStatus.expired, phase := MonitorPhase.awaitingRun,
        execInvoked := false } ∧
    terminalStatus TradeStatus.expired = true ∧
    DashStep
      { status := TradeStatus.expired, phase := MonitorPhase.awaitingRun,
        execInvoked := false }
      { status := TradeStatus.expired, phase := MonitorPhase.ranExecution,
        execInvoked := true } ∧
    DashStep
      { status := TradeStatus.expired, phase := MonitorPhase.ranExecution,
        execInvoked := true }
      { status := TradeStatus.executed, phase := MonitorPhase.finished,
        execInvoked := true } := by
  refine ⟨?_, rfl, ?_, ?_⟩
  · exact Relation.ReflTransGen.tail
      (Relation.ReflTransGen.single (DashStep.beginMonitoring initialTrade rfl))
      (DashStep.cancelTrade _ (Or.inr rfl))
  · exact DashStep.workflowExecutes _ rfl
  · exact DashStep.workflowResolvesAfterExecution _ ReceiptStatus.executed rfl

/-! ## Defensive-copy discipline of the ledgers
(`src/payment/x402-client.ts` `getPaymentRecords`,
`src/economic/reasoning-engine.ts` `getReasonCodes`)

Aliasing model: payment-record objects, reason-code objects, and array
objects live on a heap and are handled by reference (as in JS). A client
holds references to its internal `records` / `reasonCodes` array objects;
`[...this.records]` allocates a fresh array object whose *elements are the
same record references* — a shallow copy. -/

structure LedgerHeap where
  recObjs : List PaymentRecord
  reasonObjs : List ReasonCode
  arrObjs : List (List ℕ)
deriving DecidableEq, Repr

/-- The references a payment/reasoning client holds to its internal array
objects. -/
structure LedgerRefs where
  recordsRef : ℕ
  reasonsRef : ℕ
deriving DecidableEq, Repr

/-- Dereference an array object: the element references it currently holds. -/
def arrElems (h : LedgerHeap) (r : ℕ) : List ℕ :=
  h.arrObjs.getD r []

/-- `getPaymentRecords()`: `[...this.records]` — allocate a fresh array
object with the same element references and return the new reference. -/
def getPaymentRecordsH (h : LedgerHeap) (c : LedgerRefs) : LedgerHeap × ℕ :=
  ({ h with arrObjs := h.arrObjs ++ [arrElems h c.recordsRef] },
   h.arrObjs.length)

/-- `getReasonCodes()`: `[...this.reasonCodes]` — same shallow-copy shape. -/
def getReasonCodesH (h : LedgerHeap) (c : LedgerRefs) : LedgerHeap × ℕ :=
  ({ h with arrObjs := h.arrObjs ++ [arrElems h c.reasonsRef] },
   h.arrObjs.length)

/-- A caller-side array-level mutation of an array object it can reach
(push/pop/splice/index assignment): replace that object's element list. -/
def setArrayElems (h : LedgerHeap) (r : ℕ) (elems : List ℕ) : LedgerHeap :=
  { h with arrObjs := h.arrObjs.set r elems }

/-- A caller-side element mutation through a record reference
(e.g. `record.status = "failed"`). -/
def setRecordStatus (h : LedgerHeap) (r : ℕ) (st : PaymentStatus) :
    LedgerHeap :=
  { h with recObjs := h.recObjs.modify (fun rec => { rec with status := st }) r }

/-- The payment records the client itself sees through its internal array. -/
def readPaymentRecords (h : LedgerHeap) (c : LedgerRefs) : List PaymentRecord :=
  (arrElems h c.recordsRef).filterMap (fun r => h.recObjs[r]?)

/-- The reason codes the engine itself sees through its internal array. -/
def readReasonCodes (h : LedgerHeap) (c : LedgerRefs) : List ReasonCode :=
  (arrElems h c.reasonsRef).filterMap (fun r => h.reasonObjs[r]?)

/-- `getTotalSpent()` as observed through the heap. -/
def getTotalSpentH (h : LedgerHeap) (c : LedgerRefs) : ℚ :=
  getTotalSpent (readPaymentRecords h c)

/-- A client with one successful 10 USDC payment record: record object 0,
internal records array object 0 = `[0]`, internal reasons array object 1. -/
def c5Heap0 : LedgerHeap :=
  { recObjs := [{ tool := "https://data.example/price", cost_usdc := 10,
                  tx_hash := "0x1", timestamp := "t0",
                  status := PaymentStatus.success }],
    reasonObjs := [],
    arrObjs := [[0], []] }

def c5Client : LedgerRefs :=
  { recordsRef := 0, reasonsRef := 1 }

/-- The heap after the caller invoked `getPaymentRecords()`. -/
def c5HeapAfterGet : LedgerHeap :=
  (getPaymentRecordsH c5Heap0 c5Client).1

/-- The array reference `getPaymentRecords()` returned to the caller. -/
def c5ReturnedArr : ℕ :=
  (getPaymentRecordsH c5Heap0 c5Client).2

/-- The heap after the caller flips the status of the first element of the
returned array — mutating an element of the value `getPaymentRecords()`
returned, exactly the mutation C5 claims is harmless. -/
def c5HeapMutated : LedgerHeap :=
  setRecordStatus c5HeapAfterGet
    ((arrElems c5HeapAfterGet c5ReturnedArr).headD 0) PaymentStatus.failed

/-- C5 counterexample: flipping the status of an element of the array
returned by `getPaymentRecords()` changes the result of a subsequent
`getTotalSpent()` (10 → 0): the shallow copy shares the record objects, so
the internal ledger *is* mutable from outside through the elements. -/
theorem c5_counterexample_element_mutation_leaks :
    getTotalSpentH c5Heap0 c5Client = 10 ∧
    getTotalSpentH c5HeapMutated c5Client = 0 ∧
    readPaymentRecords c5HeapMutated c5Client ≠
      readPaymentRecords c5Heap0 c5Client := by
  refine ⟨by decide, by decide, by decide⟩

lemma getD_set_fresh {α : Type} (A : List α) (x a d : α) (i : ℕ)
    (hi : i < A.length) :
    ((A ++ [x]).set A.length a).getD i d = A.getD i d := by
  have h1 : A.length ≠ i := (Nat.ne_of_lt hi).symm
  rw [List.getD_eq_getElem?_getD, List.getD_eq_getElem?_getD,
    List.getElem?_set_ne h1, List.getElem?_append_left hi]

/-- C5 amended: the *array-level* copy discipline does hold. The array
object returned by `getPaymentRecords()` / `getReasonCodes()` is freshly
allocated, so any array-level mutation the caller performs on the returned
value (replacing, inserting or removing entries) leaves the results of all
subsequent `getPaymentRecords`, `getTotalSpent` and `getReasonCodes` calls
unchanged. (Element objects are shared, so element mutation is *not*
covered — see the counterexample.) -/
theorem c5_amended_array_copy_isolated (h : LedgerHeap) (c : LedgerRefs)
    (elems : List ℕ)
    (hrec : c.recordsRef < h.arrObjs.length)
    (hreas : c.reasonsRef < h.arrObjs.length) :
    readPaymentRecords
      (setArrayElems (getPaymentRecordsH h c).1 (getPaymentRecordsH h c).2
        elems) c = readPaymentRecords h c ∧
    getTotalSpentH
      (setArrayElems (getPaymentRecordsH h c).1 (getPaymentRecordsH h c).2
        elems) c = getTotalSpentH h c ∧
    readReasonCodes
      (setArrayElems (getPaymentRecordsH h c).1 (getPaymentRecordsH h c).2
        elems) c = readReasonCodes h c ∧
    readPaymentRecords
      (setArrayElems (getReasonCodesH h c).1 (getReasonCodesH h c).2 elems)
      c = readPaymentRecords h c ∧
    getTotalSpentH
      (setArrayElems (getReasonCodesH h c).1 (getReasonCodesH h c).2 elems)
      c = getTotalSpentH h c ∧
    readReasonCodes
      (setArrayElems (getReasonCodesH h c).1 (getReasonCodesH h c).2 elems)
      c = readReasonCodes h c := by
  have hpr : ∀ src : ℕ,
      arrElems (setArrayElems
        ({ h with arrObjs := h.arrObjs ++ [arrElems h src] } : LedgerHeap)
        h.arrObjs.length elems) c.recordsRef = arrElems h c.recordsRef := by
    intro src
    simp only [arrElems, setArrayElems]
    exact getD_set_fresh h.arrObjs (arrElems h src) elems [] c.recordsRef hrec
  have hrs : ∀ src : ℕ,
      arrElems (setArrayElems
        ({ h with arrObjs := h.arrObjs ++ [arrElems h src] } : LedgerHeap)
        h.arrObjs.length elems) c.reasonsRef = arrElems h c.reasonsRef := by
    intro src
    simp only [arrElems, setArrayElems]
    exact getD_set_fresh h.arrObjs (arrElems h src) elems [] c.reasonsRef hreas
  refine ⟨?_, ?_, ?_, ?_, ?_, ?_⟩ <;>
    simp only [readPaymentRecords, readReasonCodes, getTotalSpentH,
      getPaymentRecordsH, getReasonCodesH, setArrayElems, arrElems] at *
  · rw [show ((h.arrObjs ++ [h.arrObjs.getD c.recordsRef []]).set
        h.arrObjs.length elems).getD c.recordsRef [] =
        h.arrObjs.getD c.recordsRef [] from hpr c.recordsRef]
  · rw [show ((h.arrObjs ++ [h.arrObjs.getD c.recordsRef []]).set
        h.arrObjs.length elems).getD c.recordsRef [] =
        h.arrObjs.getD c.recordsRef [] from hpr c.recordsRef]
  · rw [show ((h.arrObjs ++ [h.arrObjs.getD c.recordsRef []]).set
        h.arrObjs.length elems).getD c.reasonsRef [] =
        h.arrObjs.getD c.reasonsRef [] from hrs c.recordsRef]
  · rw [show ((h.arrObjs ++ [h.arrObjs.getD c.reasonsRef []]).set
        h.arrObjs.length elems).getD c.recordsRef [] =
        h.arrObjs.getD c.recordsRef [] from hpr c.reasonsRef]
  · rw [show ((h.arrObjs ++ [h.arrObjs.getD c.reasonsRef []]).set
        h.arrObjs.length elems).getD c.recordsRef [] =
        h.arrObjs.getD c.recordsRef [] from hpr c.reasonsRef]
  · rw [show ((h.arrObjs ++ [h.arrObjs.getD c.reasonsRef []]).set
        h.arrObjs.length elems).getD c.reasonsRef [] =
        h.arrObjs.getD c.reasonsRef [] from hrs c.reasonsRef]

theorem c5_amended_witness :
    (c5Client.recordsRef < c5Heap0.arrObjs.length ∧
     c5Client.reasonsRef < c5Heap0.arrObjs.length) ∧
    (readPaymentRecords
      (setArrayElems (getPaymentRecordsH c5Heap0 c5Client).1
        (getPaymentRecordsH c5Heap0 c5Client).2 []) c5Client =
      readPaymentRecords c5Heap0 c5Client ∧
     getTotalSpentH
      (setArrayElems (getPaymentRecordsH c5Heap0 c5Client).1
        (getPaymentRecordsH c5Heap0 c5Client).2 []) c5Client =
      getTotalSpentH c5Heap0 c5Client ∧
     readReasonCodes
      (setArrayElems (getPaymentRecordsH c5Heap0 c5Client).1
        (getPaymentRecordsH c5Heap0 c5Client).2 []) c5Client =
      readReasonCodes c5Heap0 c5Client ∧
     readPaymentRecords
      (setArrayElems (getReasonCodesH c5Heap0 c5Client).1
        (getReasonCodesH c5Heap0 c5Client).2 []) c5Client =
      readPaymentRecords c5Heap0 c5Client ∧
     getTotalSpentH
      (setArrayElems (getReasonCodesH c5Heap0 c5Client).1
        (getReasonCodesH c5Heap0 c5Client).2 []) c5Client =
      getTotalSpentH c5Heap0 c5Client ∧
     readReasonCodes
      (setArrayElems (getReasonCodesH c5Heap0 c5Client).1
        (getReasonCodesH c5Heap0 c5Client).2 []) c5Client =
      readReasonCodes c5Heap0 c5Client) :=
  ⟨⟨by decide, by decide⟩,
   c5_amended_array_copy_isolated c5Heap0 c5Client [] (by decide) (by decide)⟩

end ShadowTrade
